import Mathlib

/-!
Shallow embedding of the trading components of `padak/binance_trading`
(files `src/core/state_manager.py`, `src/core/trading_engine.py`,
`src/services/market_data.py`) and proofs about them.

Python `Decimal` and `float` values are modelled as `ℚ` (all the code under
study only adds, subtracts, multiplies, divides and compares them);
timestamps (`datetime.now()`) are modelled as explicit `ℕ` parameters.
-/

/-- `TradingState` enum from `state_manager.py`. -/
inductive TradingState where
  | READY_TO_BUY
  | BUYING
  | READY_TO_SELL
  | SELLING
deriving DecidableEq, Repr

open TradingState

/-- `Position` dataclass. -/
structure Position where
  symbol : String
  quantity : ℚ
  entry_price : ℚ
  timestamp : ℕ
deriving DecidableEq, Repr

/-- `Order` dataclass.  Binance order ids are integers; the code only ever
compares them through `str(...) == str(...)`, which on integers agrees with
integer equality, so we keep `id : ℕ`. -/
structure Order where
  id : ℕ
  symbol : String
  side : String
  quantity : ℚ
  price : ℚ
  status : String
  timestamp : ℕ
deriving DecidableEq, Repr

/-- `Trade` dataclass. -/
structure Trade where
  buy_order : Order
  sell_order : Option Order
  profit_loss : Option ℚ
  status : String
  timestamp : ℕ
deriving DecidableEq, Repr

/-- The mutable fields of a `StateManager` that the trading logic touches
(the Binance client, API keys and AI-consultation cache are I/O plumbing
with no effect on the state machine). -/
structure StateManager where
  symbol : String
  current_state : TradingState
  current_position : Option Position
  active_order : Option Order
  trades : List Trade
deriving DecidableEq, Repr

/-- `StateManager.__init__`. -/
def StateManager.init (symbol : String) : StateManager :=
  { symbol := symbol
    current_state := READY_TO_BUY
    current_position := none
    active_order := none
    trades := [] }

/-- `StateManager._is_valid_transition`: the allowed-transition table. -/
def is_valid_transition (current new_state : TradingState) : Bool :=
  match current with
  | READY_TO_BUY => new_state = BUYING
  | BUYING => new_state = READY_TO_SELL ∨ new_state = READY_TO_BUY
  | READY_TO_SELL => new_state = SELLING
  | SELLING => new_state = READY_TO_BUY ∨ new_state = READY_TO_SELL

/-- `StateManager.transition`: returns the success flag together with the
updated manager.  On an invalid transition it returns `false` and the
manager unchanged (the Python code logs and returns `False`; it cannot
raise).  When an order is supplied and the transition is valid, the order
becomes the active order. -/
def StateManager.transition (s : StateManager) (new_state : TradingState)
    (order : Option Order) : Bool × StateManager :=
  if is_valid_transition s.current_state new_state then
    let s' := { s with current_state := new_state }
    match order with
    | some o => (true, { s' with active_order := some o })
    | none => (true, s')
  else
    (false, s)

/-- `StateManager._calculate_profit_loss`.  `trade.buy_order` is a plain
dataclass field (always truthy in Python), so only the `sell_order` guard
is live. -/
def calculate_profit_loss (trade : Trade) : ℚ :=
  match trade.sell_order with
  | none => 0
  | some so =>
      let buy_value := trade.buy_order.quantity * trade.buy_order.price
      let sell_value := so.quantity * so.price
      let fee_rate : ℚ := 1/1000
      let buy_fee := buy_value * fee_rate
      let sell_fee := sell_value * fee_rate
      sell_value - buy_value - buy_fee - sell_fee

/-- `StateManager.record_trade`. -/
def StateManager.record_trade (s : StateManager) (buy_order : Order)
    (now : ℕ) : StateManager :=
  { s with trades := s.trades ++
      [{ buy_order := buy_order, sell_order := none, profit_loss := none
         status := "OPEN", timestamp := now }] }

/-- An order-status update message as consumed by `handle_order_update`
(`orderId`/`status`/`price` keys may be absent). -/
structure OrderUpdate where
  orderId : Option ℕ
  status : Option String
  price : Option ℚ
deriving DecidableEq, Repr

/-- Python truthiness of the `orderId` field (`not order_id` is true for a
missing key and for the integer 0). -/
def orderIdTruthy : Option ℕ → Bool
  | none => false
  | some n => n ≠ 0

/-- Python truthiness of the `status` field (`not new_status` is true for a
missing key and for the empty string). -/
def statusTruthy : Option String → Bool
  | none => false
  | some s => s ≠ ""

/-- Closing a ledger trade against a sell order, in the statement order of
the Python code: `sell_order` is assigned first, then `status`, then
`profit_loss` is computed from the updated trade. -/
def closeWith (o : Order) (t : Trade) : Trade :=
  let t1 := { t with sell_order := some o, status := "CLOSED" }
  { t1 with profit_loss := some (calculate_profit_loss t1) }

/-- The `self.trades[-1]` closing step of the SELLING branch of
`handle_order_update`: if the ledger is nonempty and its last trade is
OPEN, close it against the given order. -/
def closeLast (o : Order) (ts : List Trade) : List Trade :=
  match ts.getLast? with
  | some t => if t.status = "OPEN" then ts.dropLast ++ [closeWith o t] else ts
  | none => ts

/-- `if valid then new else current`: the effect of a plain
`transition(new)` call (no order argument) on the current state alone. -/
def transitionState (current new_state : TradingState) : TradingState :=
  if is_valid_transition current new_state then new_state else current

/-- The loop-body guard of `handle_order_update`'s ledger scan: the trade
is still OPEN and its sell leg carries the given order id. -/
def sellLegMatches (oid : ℕ) (t : Trade) : Bool :=
  t.status = "OPEN" && (match t.sell_order with
    | some so => so.id = oid
    | none => false)

/-- The `for trade in self.trades:` loop of `handle_order_update`: scans
the ledger in order, closing every OPEN trade whose sell leg carries the
given order id when the status is FILLED; each close also clears the
position and attempts a transition to READY_TO_BUY.  Returns the rebuilt
ledger together with the final position and state. -/
def ledgerLoop (oid : ℕ) (new_status : String) :
    List Trade → Option Position → TradingState →
    List Trade × Option Position × TradingState
  | [], pos, cs => ([], pos, cs)
  | t :: ts, pos, cs =>
      if sellLegMatches oid t then
        if new_status = "FILLED" then
          let t' :=
            { t with status := "CLOSED"
                     profit_loss := some (calculate_profit_loss t) }
          let r := ledgerLoop oid new_status ts none
                     (transitionState cs READY_TO_BUY)
          (t' :: r.1, r.2)
        else
          let r := ledgerLoop oid new_status ts pos cs
          (t :: r.1, r.2)
      else
        let r := ledgerLoop oid new_status ts pos cs
        (t :: r.1, r.2)

/-- `StateManager.handle_order_update`.  `now` stands for the
`datetime.now()` read in the BUYING branch. -/
def StateManager.handle_order_update (s : StateManager) (u : OrderUpdate)
    (now : ℕ) : StateManager :=
  if ¬ (orderIdTruthy u.orderId ∧ statusTruthy u.status) then s
  else
    match u.orderId, u.status with
    | some oid, some new_status =>
      match s.active_order with
      | some o =>
        if o.id = oid then
          if new_status = "FILLED" then
            if s.current_state = BUYING then
              let pos : Position :=
                { symbol := s.symbol, quantity := o.quantity
                  entry_price := (u.price).getD 0, timestamp := now }
              let s1 := { s with current_position := some pos }
              (s1.transition READY_TO_SELL none).2
            else if s.current_state = SELLING then
              let s1 := { s with trades := closeLast o s.trades }
              let s2 := { s1 with current_position := none }
              (s2.transition READY_TO_BUY none).2
            else s
          else if new_status = "CANCELED" ∨ new_status = "REJECTED" ∨
              new_status = "EXPIRED" then
            if s.current_state = BUYING then
              (s.transition READY_TO_BUY none).2
            else if s.current_state = SELLING then
              (s.transition READY_TO_SELL none).2
            else s
          else s
        else
          let r := ledgerLoop oid new_status s.trades s.current_position
                     s.current_state
          { s with trades := r.1, current_position := r.2.1
                   current_state := r.2.2 }
      | none =>
          let r := ledgerLoop oid new_status s.trades s.current_position
                     s.current_state
          { s with trades := r.1, current_position := r.2.1
                   current_state := r.2.2 }
    | _, _ => s

/-- Round-half-to-even of a rational to an integer: the rounding used by
Python `Decimal.quantize` under the default `ROUND_HALF_EVEN` context. -/
def roundHalfEven (x : ℚ) : ℤ :=
  let f := ⌊x⌋
  let frac := x - f
  if frac < 1/2 then f
  else if 1/2 < frac then f + 1
  else if f % 2 = 0 then f else f + 1

/-- `quantity.quantize(Decimal('0.001'))` with the default rounding mode:
round to the nearest multiple of 1/1000, ties to even. -/
def quantize3 (q : ℚ) : ℚ := (roundHalfEven (q * 1000) : ℚ) / 1000

/-- `StateManager.place_sell_order`, with the exchange response (order id
and status) passed in as parameters.  Returns `none` when the code raises
(`ValueError("No position to sell")`); otherwise the updated manager and
the submitted sell order, whose quantity is the quantized one. -/
def StateManager.place_sell_order (s : StateManager) (price quantity : ℚ)
    (exchOrderId : ℕ) (exchStatus : String) (now : ℕ) :
    Option (StateManager × Order) :=
  let formatted_quantity := quantize3 quantity
  match s.current_position with
  | none => none
  | some _ =>
      let sell_order : Order :=
        { id := exchOrderId, symbol := s.symbol, side := "SELL"
          quantity := formatted_quantity, price := price
          status := exchStatus, timestamp := now }
      some ((s.transition SELLING (some sell_order)).2, sell_order)

/-! ## Trading engine (`src/core/trading_engine.py`) -/

/-- `MarketCondition` dataclass, with the `technical_signals` dict split
into its three keys. -/
structure MarketCondition where
  price : ℚ
  btc_correlation : ℚ
  market_sentiment : ℚ
  ma_signal : ℚ
  rsi : ℚ
  macd : ℚ
  order_book_imbalance : ℚ
  fear_greed_index : ℤ
deriving DecidableEq, Repr

/-- The engine's `self.config` dictionary. -/
structure EngineConfig where
  min_confidence : ℚ
  max_position_size : ℚ
  risk_per_trade : ℚ
  technical_weight : ℚ
  sentiment_weight : ℚ
  correlation_weight : ℚ
  stop_loss_pct : ℚ
  take_profit_pct : ℚ
deriving DecidableEq, Repr

/-- The default configuration from `TradingEngine.__init__`. -/
def defaultConfig : EngineConfig :=
  { min_confidence := 7/10
    max_position_size := 10
    risk_per_trade := 1/10
    technical_weight := 2/5
    sentiment_weight := 3/10
    correlation_weight := 3/10
    stop_loss_pct := 1/50
    take_profit_pct := 1/20 }

/-- `TradingSignal` dataclass (the `reasons` dict split into its keys). -/
structure TradingSignal where
  action : String
  confidence : ℚ
  price : ℚ
  quantity : ℚ
  timestamp : ℕ
  reason_technical : ℚ
  reason_sentiment : ℚ
  reason_correlation : ℚ
deriving DecidableEq, Repr

/-- `TradingEngine._analyze_technical_signals`. -/
def analyze_technical_signals (condition : MarketCondition) : String × ℚ :=
  let ma_bullish := decide (0 < condition.ma_signal)
  let rsi_bullish := decide (30 ≤ condition.rsi ∧ condition.rsi ≤ 70)
  let macd_bullish := decide (0 < condition.macd)
  let ob_bullish := decide (0 < condition.order_book_imbalance)
  let bullish_count : ℕ :=
    (if ma_bullish then 1 else 0) + (if rsi_bullish then 1 else 0) +
    (if macd_bullish then 1 else 0) + (if ob_bullish then 1 else 0)
  let confidence : ℚ := (bullish_count : ℚ) / 4
  (if 1/2 < confidence then "BUY" else "SELL", confidence)

/-- `TradingEngine._analyze_sentiment_signals`. -/
def analyze_sentiment_signals (condition : MarketCondition) : String × ℚ :=
  let sentiment_score := condition.market_sentiment
  let fear_greed_normalized := (condition.fear_greed_index : ℚ) / 100
  let combined_sentiment := (sentiment_score + fear_greed_normalized) / 2
  (if 0 < combined_sentiment then "BUY" else "SELL", |combined_sentiment|)

/-- `TradingEngine._analyze_correlation_signals`. -/
def analyze_correlation_signals (condition : MarketCondition) : String × ℚ :=
  ("BUY", min |condition.btc_correlation| 1)

/-- `TradingEngine._calculate_position_size`.  The source is a plain
(synchronous) method whose first statement binds
`balance = self.state_manager.get_available_balance()` WITHOUT `await`,
so `balance` is a coroutine object, and the next statement
`balance * self.config['risk_per_trade']` raises `TypeError`
unconditionally: no quantity is ever returned.  Modelled as the raised
exception. -/
def calculate_position_size (config : EngineConfig)
    (current_price : ℚ) : Except String ℚ :=
  let _ := config
  let _ := current_price
  .error "TypeError: unsupported operand type(s) for *: coroutine and Decimal"

/-- `TradingEngine._generate_trading_signal`: `state` is the state
manager's current state, `now` the `datetime.now()` timestamp.  The
result is `.ok none` when no signal is generated and `.error e` when the
body raises: on the threshold-met path the quantity computation
`_calculate_position_size` raises `TypeError`, which propagates out of
the method. -/
def generate_trading_signal (config : EngineConfig) (state : TradingState)
    (condition : MarketCondition) (now : ℕ) :
    Except String (Option TradingSignal) :=
  if state ≠ READY_TO_BUY ∧ state ≠ READY_TO_SELL then .ok none
  else
    let technical_signal := analyze_technical_signals condition
    let sentiment_signal := analyze_sentiment_signals condition
    let correlation_signal := analyze_correlation_signals condition
    let total_confidence :=
      technical_signal.2 * config.technical_weight +
      sentiment_signal.2 * config.sentiment_weight +
      correlation_signal.2 * config.correlation_weight
    let action := if state = READY_TO_BUY then "BUY" else "SELL"
    if config.min_confidence ≤ total_confidence then
      match calculate_position_size config condition.price with
      | .error e => .error e
      | .ok quantity =>
          .ok (some { action := action
                      confidence := total_confidence
                      price := condition.price
                      quantity := quantity
                      timestamp := now
                      reason_technical := technical_signal.2
                      reason_sentiment := sentiment_signal.2
                      reason_correlation := correlation_signal.2 })
    else .ok none

/-- The fused confidence of `_generate_trading_signal`, as its own
definition for the statements below. -/
def total_confidence_of (config : EngineConfig)
    (condition : MarketCondition) : ℚ :=
  (analyze_technical_signals condition).2 * config.technical_weight +
  (analyze_sentiment_signals condition).2 * config.sentiment_weight +
  (analyze_correlation_signals condition).2 * config.correlation_weight

/-! ## Order book and candles (`src/services/market_data.py`) -/

/-- Association-list lookup, modelling Python `dict.get` /
`price in book`. -/
def alistGet {α : Type} : List (ℚ × α) → ℚ → Option α
  | [], _ => none
  | (a, b) :: ts, p => if a = p then some b else alistGet ts p

/-- Association-list assignment, modelling Python `d[k] = v` (replace in
place when present, append otherwise). -/
def alistSet {α : Type} : List (ℚ × α) → ℚ → α → List (ℚ × α)
  | [], p, v => [(p, v)]
  | (a, b) :: ts, p, v =>
      if a = p then (p, v) :: ts else (a, b) :: alistSet ts p v

/-- Association-list removal, modelling Python `d.pop(k, None)`. -/
def alistErase {α : Type} : List (ℚ × α) → ℚ → List (ℚ × α)
  | [], _ => []
  | (a, b) :: ts, p => if a = p then ts else (a, b) :: alistErase ts p

/-- `OrderBook` state: the two book sides, the per-price cancellation
counters and the `last_update` wall-clock second used by
`_update_metrics`. -/
structure OrderBook where
  bids : List (ℚ × ℚ)
  asks : List (ℚ × ℚ)
  cancel_counts : List (ℚ × ℕ)
  last_update : ℕ
deriving DecidableEq, Repr

/-- `OrderBook.__init__` (at wall-clock second `now`). -/
def OrderBook.init (now : ℕ) : OrderBook :=
  { bids := [], asks := [], cancel_counts := [], last_update := now }

/-- The `side` argument of `OrderBook.update`.  In the source it is a
string routed through `side.upper() == 'BUY'`; every caller passes the
literal `'BUY'` or `'SELL'`, so the two cases are modelled as an
enumeration. -/
inductive Side where
  | BUY
  | SELL
deriving DecidableEq, Repr

/-- The side selection `self.bids if side.upper() == 'BUY' else self.asks`. -/
def sideBook (ob : OrderBook) (side : Side) : List (ℚ × ℚ) :=
  if side = Side.BUY then ob.bids else ob.asks

/-- `OrderBook.update` followed by the inlined `_update_metrics` call:
positive quantities set the level, non-positive ones remove it and, when
the level was present, bump its cancellation counter; then the metrics
step clears all counters once 60 wall-clock seconds have elapsed. -/
def OrderBook.update (ob : OrderBook) (side : Side) (price quantity : ℚ)
    (now : ℕ) : OrderBook :=
  let book := sideBook ob side
  let res :=
    if 0 < quantity then (alistSet book price quantity, ob.cancel_counts)
    else
      (alistErase book price,
       if (alistGet book price).isSome then
         alistSet ob.cancel_counts price
           ((alistGet ob.cancel_counts price).getD 0 + 1)
       else ob.cancel_counts)
  let ob1 :=
    if side = Side.BUY then
      { ob with bids := res.1, cancel_counts := res.2 }
    else
      { ob with asks := res.1, cancel_counts := res.2 }
  if 60 ≤ now - ob1.last_update then
    { ob1 with cancel_counts := [], last_update := now }
  else ob1

/-- `OrderBook.bid_volume`. -/
def bid_volume (ob : OrderBook) : ℚ := (ob.bids.map Prod.snd).sum

/-- `OrderBook.ask_volume`. -/
def ask_volume (ob : OrderBook) : ℚ := (ob.asks.map Prod.snd).sum

/-- `OrderBook.get_imbalance`. -/
def get_imbalance (ob : OrderBook) : ℚ :=
  let total_volume := bid_volume ob + ask_volume ob
  if total_volume = 0 then 0
  else (bid_volume ob - ask_volume ob) / total_volume

/-- `OrderBook.detect_spoofing`. -/
def detect_spoofing (ob : OrderBook) : Bool :=
  let high_cancel_count :=
    (ob.cancel_counts.filter (fun pc => 5 < pc.2)).length
  let total_orders := ob.bids.length + ob.asks.length
  if 0 < total_orders then
    decide ((9 : ℚ)/10 < (high_cancel_count : ℚ) / (total_orders : ℚ))
  else false

/-- The spoofing criterion in the words of the specification: more than
90% of the price levels currently present in the bid or ask book have a
cancellation counter greater than 5; false when no level is tracked.
Used only to compare the specified behaviour with `detect_spoofing`. -/
def spec_spoofing (ob : OrderBook) : Bool :=
  let levels := (ob.bids.map Prod.fst ++ ob.asks.map Prod.fst).dedup
  let high :=
    (levels.filter (fun p => 5 < (alistGet ob.cancel_counts p).getD 0)).length
  if 0 < levels.length then
    decide ((9 : ℚ)/10 < (high : ℚ) / (levels.length : ℚ))
  else false

/-- One depth-stream update as fed to `OrderBook.update`. -/
structure BookUpdate where
  side : Side
  price : ℚ
  quantity : ℚ
  now : ℕ
deriving DecidableEq, Repr

/-- A sequence of `OrderBook.update` calls. -/
def applyUpdates (ob : OrderBook) (us : List BookUpdate) : OrderBook :=
  us.foldl (fun b u => b.update u.side u.price u.quantity u.now) ob

/-- `Candle` dataclass (`open` is a Lean keyword, hence `open_`). -/
structure Candle where
  timestamp : ℕ
  open_ : ℚ
  high : ℚ
  low : ℚ
  close : ℚ
  volume : ℚ
  trades : ℕ
  vwap : Option ℚ
deriving DecidableEq, Repr

/-- Candle creation at an interval boundary in `_candle_manager`: seeded
with `open = high = low = close = last_price` and zero volume. -/
def mkCandle (now : ℕ) (last_price : ℚ) : Candle :=
  { timestamp := now, open_ := last_price, high := last_price
    low := last_price, close := last_price, volume := 0, trades := 0
    vwap := none }

/-- A trade-stream message as consumed by `_handle_trades` (`p` and `q`
keys may be absent, defaulting to 0). -/
structure TradeMsg where
  p : Option ℚ
  q : Option ℚ
deriving DecidableEq, Repr

/-- Python truthiness of the candle's `vwap` field: `not vwap` is true
when it is unset or equal to 0. -/
def vwapFalsy : Option ℚ → Bool
  | none => true
  | some w => w = 0

/-- The current-candle update step of `_handle_trades`: extend high/low,
move close, accumulate volume and trade count, then update the running
VWAP (the division uses the already-updated volume, as in the source). -/
def handle_trades (c : Candle) (msg : TradeMsg) : Candle :=
  let price := (msg.p).getD 0
  let volume := (msg.q).getD 0
  let c1 := { c with high := max c.high price, low := min c.low price
                     close := price, volume := c.volume + volume
                     trades := c.trades + 1 }
  if 0 < volume then
    if vwapFalsy c1.vwap then { c1 with vwap := some price }
    else
      match c1.vwap with
      | some w =>
          let w' := (w * (c1.volume - volume) + price * volume) / c1.volume
          { c1 with vwap := some w' }
      | none => { c1 with vwap := some price }
  else c1

/-- A candle sealed into history: created at an interval boundary from the
last price, then updated by a sequence of trade messages
(`_candle_manager` appends `current_candle` unchanged). -/
def sealedCandle (now : ℕ) (last_price : ℚ) (msgs : List TradeMsg) : Candle :=
  msgs.foldl handle_trades (mkCandle now last_price)

/-! ## Theorems -/

/-- The transition table of the specification (§4.3). -/
def transitionTable : List (TradingState × TradingState) :=
  [(READY_TO_BUY, BUYING), (BUYING, READY_TO_SELL), (BUYING, READY_TO_BUY),
   (READY_TO_SELL, SELLING), (SELLING, READY_TO_BUY), (SELLING, READY_TO_SELL)]

/-- C1: `transition` succeeds exactly for the pairs of the table
{READY_TO_BUY→BUYING, BUYING→READY_TO_SELL, BUYING→READY_TO_BUY,
READY_TO_SELL→SELLING, SELLING→READY_TO_BUY, SELLING→READY_TO_SELL};
for every pair outside the table it returns `false` (it never raises:
the embedding is a total function) and leaves the manager unchanged. -/
theorem transition_succeeds_iff_in_table (s : StateManager)
    (new_state : TradingState) (order : Option Order) :
    ((s.transition new_state order).1 = true ↔
      (s.current_state, new_state) ∈ transitionTable)
    ∧ ((s.transition new_state order).1 = false →
      (s.transition new_state order).2 = s) := by
  rcases s with ⟨sym, cs, pos, ao, tr⟩
  cases order <;> cases cs <;> cases new_state <;>
    simp [StateManager.transition, is_valid_transition, transitionTable]

/-- Witness for C1 at a concrete input: from the initial state,
`transition SELLING` fails and leaves the manager unchanged. -/
theorem transition_succeeds_iff_in_table_witness :
    ((StateManager.init "TRUMPUSDC").transition SELLING none).1 = false ∧
    ((StateManager.init "TRUMPUSDC").transition SELLING none).2 =
      StateManager.init "TRUMPUSDC" :=
  ⟨rfl, (transition_succeeds_iff_in_table (StateManager.init "TRUMPUSDC")
    SELLING none).2 rfl⟩

/-- C3: for every trade with both legs, `_calculate_profit_loss` returns
`sell_qty×sell_price − buy_qty×buy_price
 − 0.001×(sell_qty×sell_price + buy_qty×buy_price)`. -/
theorem profit_loss_formula (t : Trade) (so : Order)
    (h : t.sell_order = some so) :
    calculate_profit_loss t =
      so.quantity * so.price - t.buy_order.quantity * t.buy_order.price -
        (1/1000) * (so.quantity * so.price +
          t.buy_order.quantity * t.buy_order.price) := by
  simp only [calculate_profit_loss, h]
  ring

/-- The buy leg of the specification's worked example: qty 1 at 100. -/
def exampleBuy : Order :=
  { id := 1, symbol := "TRUMPUSDC", side := "BUY", quantity := 1,
    price := 100, status := "FILLED", timestamp := 0 }

/-- The sell leg of the specification's worked example: qty 1 at 110. -/
def exampleSell : Order :=
  { id := 2, symbol := "TRUMPUSDC", side := "SELL", quantity := 1,
    price := 110, status := "FILLED", timestamp := 1 }

/-- The specification's worked round trip: buy qty 1 at 100, sell qty 1
at 110. -/
def exampleRoundTrip : Trade :=
  { buy_order := exampleBuy, sell_order := some exampleSell,
    profit_loss := none, status := "OPEN", timestamp := 0 }

/-- Witness for C3: on the worked example (buy 1@100, sell 1@110) the net
profit is 110 − 100 − 0.001×(110+100) = 9.79. -/
theorem profit_loss_formula_witness :
    exampleRoundTrip.sell_order = some exampleSell ∧
    calculate_profit_loss exampleRoundTrip = 979/100 := by
  refine ⟨rfl, ?_⟩
  rw [profit_loss_formula exampleRoundTrip exampleSell rfl]
  norm_num [exampleRoundTrip, exampleBuy, exampleSell]

/-- C9: an order update without an `orderId` or without a `status` leaves
the whole manager (state, position, active order, ledger) unchanged. -/
theorem handle_order_update_invalid_noop (s : StateManager)
    (u : OrderUpdate) (now : ℕ) (h : u.orderId = none ∨ u.status = none) :
    s.handle_order_update u now = s := by
  rcases h with h | h <;>
    simp [StateManager.handle_order_update, h, orderIdTruthy, statusTruthy]

/-- Witness for C9: a FILLED update with no order id is a no-op on the
freshly initialised manager. -/
theorem handle_order_update_invalid_noop_witness :
    (StateManager.init "TRUMPUSDC").handle_order_update
      { orderId := none, status := some "FILLED", price := none } 5 =
      StateManager.init "TRUMPUSDC" :=
  handle_order_update_invalid_noop (StateManager.init "TRUMPUSDC")
    { orderId := none, status := some "FILLED", price := none } 5
    (Or.inl rfl)

/-- A manager holding a position of 0.2567, ready to sell. -/
def exampleSellState : StateManager :=
  { StateManager.init "TRUMPUSDC" with
      current_state := READY_TO_SELL
      current_position :=
        some { symbol := "TRUMPUSDC", quantity := 2567/10000,
               entry_price := 10, timestamp := 0 } }

/-- C4 counterexample: selling 0.2567 does NOT submit the truncated
quantity 0.256 — `Decimal.quantize(Decimal('0.001'))` under the default
rounding submits 0.257 (rounded up); and a quantity far below any minimum
lot (0.0001, which quantizes to 0) is still submitted instead of
failing. -/
theorem place_sell_order_not_truncated :
    (exampleSellState.place_sell_order 12 (2567/10000) 42 "NEW" 7).map
        (fun r => r.2.quantity) = some (257/1000) ∧
    (257 : ℚ)/1000 ≠ 256/1000 ∧
    ((exampleSellState.place_sell_order 12 (1/10000) 43 "NEW" 7).map
        (fun r => r.2.quantity) = some 0) := by
  refine ⟨?_, by norm_num, ?_⟩ <;>
    norm_num [exampleSellState, StateManager.init, StateManager.place_sell_order,
      quantize3, roundHalfEven, StateManager.transition, is_valid_transition]

/-- C4 as amended: for every quantity passed to `place_sell_order` with a
position present, the submitted order quantity is the input quantity
quantized to the 0.001 step by round-half-to-even (Python
`Decimal.quantize`'s default), which can round up; the call does not fail
for quantities below any minimum order quantity. -/
theorem place_sell_order_quantizes_half_even (s : StateManager)
    (price quantity : ℚ) (oid : ℕ) (ost : String) (now : ℕ) (p : Position)
    (h : s.current_position = some p) :
    (s.place_sell_order price quantity oid ost now).map
      (fun r => r.2.quantity) =
      some ((roundHalfEven (quantity * 1000) : ℚ) / 1000) := by
  simp [StateManager.place_sell_order, h, quantize3]

/-- Witness for the amended C4: with the 0.2567 position,
`place_sell_order` submits quantity 257/1000. -/
theorem place_sell_order_quantizes_half_even_witness :
    (exampleSellState.place_sell_order 12 (2567/10000) 42 "NEW" 7).map
      (fun r => r.2.quantity) = some (257/1000) := by
  rw [place_sell_order_quantizes_half_even exampleSellState 12 (2567/10000)
    42 "NEW" 7 _ rfl]
  norm_num [roundHalfEven]

/-- The OHLC fields of one `_handle_trades` step: open is untouched, high
and low absorb the trade price, close becomes the trade price. -/
theorem handle_trades_ohlc (c : Candle) (msg : TradeMsg) :
    (handle_trades c msg).open_ = c.open_ ∧
    (handle_trades c msg).high = max c.high ((msg.p).getD 0) ∧
    (handle_trades c msg).low = min c.low ((msg.p).getD 0) ∧
    (handle_trades c msg).close = (msg.p).getD 0 := by
  cases hv : c.vwap <;>
    simp only [handle_trades, hv] <;> split_ifs <;> simp

/-- C7: every candle created at an interval boundary (seeded with
open = high = low = close = last price, volume 0) and updated by any
sequence of trade messages before being sealed satisfies
low ≤ open ≤ high and low ≤ close ≤ high. -/
theorem sealed_candle_ohlc_invariant (now : ℕ) (last_price : ℚ)
    (msgs : List TradeMsg) :
    (sealedCandle now last_price msgs).low ≤
        (sealedCandle now last_price msgs).open_ ∧
    (sealedCandle now last_price msgs).open_ ≤
        (sealedCandle now last_price msgs).high ∧
    (sealedCandle now last_price msgs).low ≤
        (sealedCandle now last_price msgs).close ∧
    (sealedCandle now last_price msgs).close ≤
        (sealedCandle now last_price msgs).high := by
  suffices h : ∀ (l : List TradeMsg) (c : Candle),
      c.low ≤ c.open_ → c.open_ ≤ c.high → c.low ≤ c.close →
      c.close ≤ c.high →
      (l.foldl handle_trades c).low ≤ (l.foldl handle_trades c).open_ ∧
      (l.foldl handle_trades c).open_ ≤ (l.foldl handle_trades c).high ∧
      (l.foldl handle_trades c).low ≤ (l.foldl handle_trades c).close ∧
      (l.foldl handle_trades c).close ≤ (l.foldl handle_trades c).high by
    exact h msgs (mkCandle now last_price) (le_refl _) (le_refl _)
      (le_refl _) (le_refl _)
  intro l
  induction l with
  | nil => intro c h1 h2 h3 h4; exact ⟨h1, h2, h3, h4⟩
  | cons m ms ih =>
      intro c h1 h2 h3 h4
      simp only [List.foldl_cons]
      obtain ⟨ho, hh, hl, hc⟩ := handle_trades_ohlc c m
      refine ih (handle_trades c m) ?_ ?_ ?_ ?_
      · rw [ho, hl]; exact le_trans (min_le_left _ _) h1
      · rw [ho, hh]; exact le_trans h2 (le_max_left _ _)
      · rw [hl, hc]; exact min_le_right _ _
      · rw [hc, hh]; exact le_max_right _ _

/-- Removing an absent key is a no-op. -/
theorem alistErase_of_get_none {α : Type} (l : List (ℚ × α)) (p : ℚ)
    (h : alistGet l p = none) : alistErase l p = l := by
  induction l with
  | nil => rfl
  | cons x ts ih =>
      obtain ⟨a, b⟩ := x
      by_cases hap : a = p
      · simp [alistGet, hap] at h
      · simp [alistGet, hap] at h
        simp [alistErase, hap, ih h]

/-- Lookup after assignment. -/
theorem alistGet_alistSet {α : Type} (l : List (ℚ × α)) (p p' : ℚ) (v : α) :
    alistGet (alistSet l p v) p' =
      if p = p' then some v else alistGet l p' := by
  induction l with
  | nil => simp [alistSet, alistGet]
  | cons x ts ih =>
      obtain ⟨a, b⟩ := x
      by_cases hap : a = p
      · subst hap
        by_cases hpp : a = p' <;> simp [alistSet, alistGet, hpp]
      · by_cases hap' : a = p'
        · subst hap'
          simp [alistSet, alistGet, hap, Ne.symm hap]
        · simp [alistSet, alistGet, hap, hap', ih]

/-- Every entry of an assignment result is an old entry or the new one. -/
theorem mem_alistSet {α : Type} (l : List (ℚ × α)) (p : ℚ) (v : α)
    (x : ℚ × α) (hx : x ∈ alistSet l p v) : x ∈ l ∨ x = (p, v) := by
  induction l with
  | nil => simpa [alistSet] using hx
  | cons y ts ih =>
      obtain ⟨a, b⟩ := y
      by_cases hap : a = p
      · simp only [alistSet, hap, if_pos rfl] at hx
        rcases List.mem_cons.mp hx with h | h
        · exact Or.inr h
        · exact Or.inl (List.mem_cons_of_mem _ h)
      · simp only [alistSet, if_neg hap] at hx
        rcases List.mem_cons.mp hx with h | h
        · exact Or.inl (h ▸ List.mem_cons_self _ _)
        · rcases ih h with h' | h'
          · exact Or.inl (List.mem_cons_of_mem _ h')
          · exact Or.inr h'

/-- Every entry surviving a removal was already present. -/
theorem mem_alistErase {α : Type} (l : List (ℚ × α)) (p : ℚ)
    (x : ℚ × α) (hx : x ∈ alistErase l p) : x ∈ l := by
  induction l with
  | nil => simpa [alistErase] using hx
  | cons y ts ih =>
      obtain ⟨a, b⟩ := y
      by_cases hap : a = p
      · simp only [alistErase, if_pos hap] at hx
        exact List.mem_cons_of_mem _ hx
      · simp only [alistErase, if_neg hap] at hx
        rcases List.mem_cons.mp hx with h | h
        · exact h ▸ List.mem_cons_self _ _
        · exact List.mem_cons_of_mem _ (ih h)

/-- All quantities stored on a book side are positive. -/
def bookPositive (l : List (ℚ × ℚ)) : Prop := ∀ x ∈ l, 0 < x.2

/-- How one `OrderBook.update` transforms the two book sides. -/
theorem update_sides (ob : OrderBook) (side : Side)
    (price quantity : ℚ) (now : ℕ) :
    ((ob.update side price quantity now).bids =
      (if side = Side.BUY then
        (if 0 < quantity then alistSet ob.bids price quantity
         else alistErase ob.bids price)
       else ob.bids)) ∧
    ((ob.update side price quantity now).asks =
      (if side = Side.BUY then ob.asks
       else (if 0 < quantity then alistSet ob.asks price quantity
         else alistErase ob.asks price))) := by
  cases side <;> simp only [OrderBook.update, sideBook] <;>
    split_ifs <;> simp_all

/-- One `OrderBook.update` preserves positivity of both sides (levels are
only ever stored through the `quantity > 0` branch). -/
theorem update_preserves_bookPositive (ob : OrderBook) (side : Side)
    (price quantity : ℚ) (now : ℕ)
    (hb : bookPositive ob.bids) (ha : bookPositive ob.asks) :
    bookPositive (ob.update side price quantity now).bids ∧
    bookPositive (ob.update side price quantity now).asks := by
  have key : ∀ (l : List (ℚ × ℚ)), bookPositive l →
      bookPositive (if 0 < quantity then alistSet l price quantity
        else alistErase l price) := by
    intro l hl
    split_ifs with hq
    · intro x hx
      rcases mem_alistSet l price quantity x hx with h | h
      · exact hl x h
      · rw [h]; exact hq
    · intro x hx
      exact hl x (mem_alistErase l price x hx)
  obtain ⟨hbid, hask⟩ := update_sides ob side price quantity now
  rw [hbid, hask]
  cases side
  · exact ⟨by simpa using key ob.bids hb, by simpa using ha⟩
  · exact ⟨by simpa using hb, by simpa using key ob.asks ha⟩

/-- After any update sequence from a fresh book, both sides hold only
positive quantities. -/
theorem applyUpdates_bookPositive (us : List BookUpdate) (ob : OrderBook)
    (hb : bookPositive ob.bids) (ha : bookPositive ob.asks) :
    bookPositive (applyUpdates ob us).bids ∧
    bookPositive (applyUpdates ob us).asks := by
  induction us generalizing ob with
  | nil => exact ⟨hb, ha⟩
  | cons u rest ih =>
      simp only [applyUpdates, List.foldl_cons]
      obtain ⟨hb', ha'⟩ :=
        update_preserves_bookPositive ob u.side u.price u.quantity u.now hb ha
      exact ih (ob.update u.side u.price u.quantity u.now) hb' ha'

/-- The imbalance of any book whose sides hold only positive quantities
lies in [−1, 1]. -/
theorem get_imbalance_bounds (ob : OrderBook)
    (hb : bookPositive ob.bids) (ha : bookPositive ob.asks) :
    -1 ≤ get_imbalance ob ∧ get_imbalance ob ≤ 1 := by
  have hbv : 0 ≤ bid_volume ob :=
    List.sum_nonneg (by
      intro x hx
      obtain ⟨y, hy, rfl⟩ := List.mem_map.mp hx
      exact le_of_lt (hb y hy))
  have hav : 0 ≤ ask_volume ob :=
    List.sum_nonneg (by
      intro x hx
      obtain ⟨y, hy, rfl⟩ := List.mem_map.mp hx
      exact le_of_lt (ha y hy))
  simp only [get_imbalance]
  split_ifs with h0
  · norm_num
  · have hpos : 0 < bid_volume ob + ask_volume ob :=
      lt_of_le_of_ne (by linarith) (Ne.symm h0)
    constructor
    · rw [le_div_iff hpos]; linarith
    · rw [div_le_one hpos]; linarith

/-- C6: for every sequence of `OrderBook.update` calls with non-negative
quantities (any sides, prices and times), the imbalance of the resulting
book lies in [−1, 1]; and whenever both sides are empty the imbalance is
exactly 0. -/
theorem imbalance_in_unit_interval (us : List BookUpdate) (now0 : ℕ)
    (_hq : ∀ u ∈ us, 0 ≤ u.quantity) :
    (-1 ≤ get_imbalance (applyUpdates (OrderBook.init now0) us) ∧
      get_imbalance (applyUpdates (OrderBook.init now0) us) ≤ 1) ∧
    ((applyUpdates (OrderBook.init now0) us).bids = [] →
      (applyUpdates (OrderBook.init now0) us).asks = [] →
      get_imbalance (applyUpdates (OrderBook.init now0) us) = 0) := by
  obtain ⟨hb, ha⟩ := applyUpdates_bookPositive us (OrderBook.init now0)
    (by intro x hx; simp [OrderBook.init] at hx)
    (by intro x hx; simp [OrderBook.init] at hx)
  refine ⟨get_imbalance_bounds _ hb ha, ?_⟩
  intro hbe hae
  simp [get_imbalance, bid_volume, ask_volume, hbe, hae]

/-- Witness for C6 on a concrete stream: a bid of 2 at price 1 and an ask
of 1 at price 2. -/
theorem imbalance_in_unit_interval_witness :
    (-1 ≤ get_imbalance (applyUpdates (OrderBook.init 0)
        [⟨Side.BUY, 1, 2, 0⟩, ⟨Side.SELL, 2, 1, 0⟩]) ∧
      get_imbalance (applyUpdates (OrderBook.init 0)
        [⟨Side.BUY, 1, 2, 0⟩, ⟨Side.SELL, 2, 1, 0⟩]) ≤ 1) := by
  refine (imbalance_in_unit_interval
    [⟨Side.BUY, 1, 2, 0⟩, ⟨Side.SELL, 2, 1, 0⟩] 0 ?_).1
  intro u hu
  rcases List.mem_cons.mp hu with h | h
  · rw [h]; norm_num
  · rcases List.mem_cons.mp h with h' | h'
    · rw [h']; norm_num
    · simp at h'

/-- The cancellation counter of a price (`cancel_counts.get(price, 0)`). -/
def cancel_count (ob : OrderBook) (p : ℚ) : ℕ :=
  (alistGet ob.cancel_counts p).getD 0

/-- How one `OrderBook.update` transforms the cancellation counters:
cleared entirely when 60 seconds have elapsed, bumped at the updated price
when a non-positive quantity removes a present level, untouched
otherwise. -/
theorem update_cancel_counts (ob : OrderBook) (side : Side)
    (price quantity : ℚ) (now : ℕ) :
    (ob.update side price quantity now).cancel_counts =
      if 60 ≤ now - ob.last_update then []
      else if 0 < quantity then ob.cancel_counts
      else if (alistGet (sideBook ob side) price).isSome then
        alistSet ob.cancel_counts price
          ((alistGet ob.cancel_counts price).getD 0 + 1)
      else ob.cancel_counts := by
  cases side <;> simp only [OrderBook.update, sideBook] <;>
    split_ifs <;> simp_all

/-- C10: a zero-quantity update at a price absent from the targeted side
leaves both book sides unchanged and does not increment that price's
cancellation counter; and (for the non-negative quantities the depth
stream delivers) a counter can only grow when a zero-quantity update
removes a level that was present, and only at that price. -/
theorem zero_qty_update_frame (ob : OrderBook) (side : Side)
    (p q p' : ℚ) (now : ℕ) :
    (alistGet (sideBook ob side) p = none →
      ((ob.update side p 0 now).bids = ob.bids ∧
       (ob.update side p 0 now).asks = ob.asks ∧
       cancel_count (ob.update side p 0 now) p ≤ cancel_count ob p))
    ∧ (0 ≤ q → cancel_count ob p' < cancel_count (ob.update side p q now) p' →
       q = 0 ∧ p' = p ∧ (alistGet (sideBook ob side) p).isSome = true) := by
  constructor
  · intro habs
    have herase : alistErase (sideBook ob side) p = sideBook ob side :=
      alistErase_of_get_none _ p habs
    obtain ⟨hbid, hask⟩ := update_sides ob side p 0 now
    have hcc := update_cancel_counts ob side p 0 now
    refine ⟨?_, ?_, ?_⟩
    · rw [hbid]
      cases side <;> simp_all [sideBook]
    · rw [hask]
      cases side <;> simp_all [sideBook]
    · unfold cancel_count
      rw [hcc]
      split_ifs with h60 hpos hpres
      · simp [alistGet]
      · exact absurd hpos (lt_irrefl 0)
      · rw [habs] at hpres; simp at hpres
      · exact le_refl _
  · intro hq hlt
    have hcc := update_cancel_counts ob side p q now
    unfold cancel_count at hlt
    rw [hcc] at hlt
    split_ifs at hlt with h60 hpos hpres
    · simp [alistGet] at hlt
    · exact absurd hlt (lt_irrefl _)
    · have hq0 : q = 0 := le_antisymm (not_lt.mp hpos) hq
      rw [alistGet_alistSet] at hlt
      by_cases hpp : p = p'
      · exact ⟨hq0, hpp.symm, hpres⟩
      · rw [if_neg hpp] at hlt
        exact absurd hlt (lt_irrefl _)
    · exact absurd hlt (lt_irrefl _)

/-- Witness for C10 at concrete inputs: on the book holding one bid level
at price 1, a zero-quantity BUY update at the absent price 3 changes
nothing; and the counter growth seen at price 1 after a zero-quantity BUY
update there certifies that 0 = 0, the price matches and the level was
present. -/
theorem zero_qty_update_frame_witness :
    ((OrderBook.mk [(1, 2)] [] [] 0).update Side.BUY 3 0 0).bids = [(1, 2)] ∧
    ((OrderBook.mk [(1, 2)] [] [] 0).update Side.BUY 3 0 0).asks = [] ∧
    cancel_count ((OrderBook.mk [(1, 2)] [] [] 0).update Side.BUY 3 0 0) 3 ≤
      cancel_count (OrderBook.mk [(1, 2)] [] [] 0) 3 ∧
    ((0 : ℚ) = 0 ∧ (1 : ℚ) = 1 ∧
      (alistGet (sideBook (OrderBook.mk [(1, 2)] [] [] 0) Side.BUY) 1).isSome
        = true) := by
  have h1 := (zero_qty_update_frame (OrderBook.mk [(1, 2)] [] [] 0)
    Side.BUY 3 0 3 0).1 (by norm_num [sideBook, alistGet])
  have h2 := (zero_qty_update_frame (OrderBook.mk [(1, 2)] [] [] 0)
    Side.BUY 1 0 1 0).2 (le_refl 0)
    (by norm_num [cancel_count, update_cancel_counts, sideBook, alistGet,
      alistSet, alistGet_alistSet])
  exact ⟨h1.1, h1.2.1, h1.2.2, h2⟩

/-- A reachable order book: price 2 is added and cancelled six times
(leaving only its cancellation counter), then a single bid at price 1 is
added.  The one tracked level (price 1) has counter 0. -/
def churnedBook : OrderBook :=
  applyUpdates (OrderBook.init 0)
    [ { side := Side.BUY, price := 2, quantity := 5, now := 0 },
      { side := Side.BUY, price := 2, quantity := 0, now := 0 },
      { side := Side.BUY, price := 2, quantity := 5, now := 0 },
      { side := Side.BUY, price := 2, quantity := 0, now := 0 },
      { side := Side.BUY, price := 2, quantity := 5, now := 0 },
      { side := Side.BUY, price := 2, quantity := 0, now := 0 },
      { side := Side.BUY, price := 2, quantity := 5, now := 0 },
      { side := Side.BUY, price := 2, quantity := 0, now := 0 },
      { side := Side.BUY, price := 2, quantity := 5, now := 0 },
      { side := Side.BUY, price := 2, quantity := 0, now := 0 },
      { side := Side.BUY, price := 2, quantity := 5, now := 0 },
      { side := Side.BUY, price := 2, quantity := 0, now := 0 },
      { side := Side.BUY, price := 1, quantity := 1, now := 0 } ]

/-- C8 counterexample: on `churnedBook` none of the currently tracked
price levels has a cancellation counter above 5 (the specified criterion
is false), yet `detect_spoofing` returns true, because it counts the
cancellation-map entry of price 2, a level no longer present in the
book. -/
theorem detect_spoofing_not_tracked_levels :
    detect_spoofing churnedBook = true ∧
    spec_spoofing churnedBook = false := by
  constructor <;>
    norm_num [churnedBook, detect_spoofing, spec_spoofing, applyUpdates,
      OrderBook.update, OrderBook.init, sideBook, alistSet, alistErase,
      alistGet, List.foldl, List.filter, List.dedup, List.dedup_cons_of_mem]

/-- C8 as amended: `detect_spoofing` returns true exactly when the book
holds at least one price level and the number of entries of the
cancellation-counter map with counter > 5 (whether or not those prices are
still present in the book) exceeds 90% of the number of levels, counting a
price present on both sides twice; in particular it returns false when the
book holds no price levels. -/
theorem detect_spoofing_characterisation (ob : OrderBook) :
    detect_spoofing ob = true ↔
      (0 < ob.bids.length + ob.asks.length ∧
        (9 : ℚ)/10 * ((ob.bids.length + ob.asks.length : ℕ) : ℚ) <
          (((ob.cancel_counts.filter (fun pc => 5 < pc.2)).length : ℕ) : ℚ)) := by
  simp only [detect_spoofing]
  split_ifs with h
  · have hpos : (0 : ℚ) < ((ob.bids.length + ob.asks.length : ℕ) : ℚ) := by
      exact_mod_cast h
    rw [decide_eq_true_eq, lt_div_iff hpos]
    exact ⟨fun hlt => ⟨h, hlt⟩, fun h2 => h2.2⟩
  · simp only [Bool.false_eq_true, false_iff]
    intro h2
    exact h h2.1

/-- A market condition whose component confidences are tech 1.0
(all four technical checks bullish), sentiment 0.5 (neutral sentiment,
fear/greed 100) and correlation 0.8. -/
def exampleCondition : MarketCondition :=
  { price := 10, btc_correlation := 4/5, market_sentiment := 0,
    ma_signal := 1, rsi := 50, macd := 1, order_book_imbalance := 1/2,
    fear_greed_index := 100 }

/-- C5 (code bug): with the default weights 0.4/0.3/0.3,
`_generate_trading_signal` reaches a signal-emitting branch exactly when
the fused confidence 0.4×tech + 0.3×sent + 0.3×corr reaches
`min_confidence` and the state is READY_TO_BUY or READY_TO_SELL — but on
exactly that branch the un-awaited-coroutine position sizing raises
TypeError, so the call errors instead of returning a signal, and on every
other input it returns no signal; in particular, at the claim's worked
example (fused confidence 0.79, min_confidence 0.7, READY_TO_BUY) the
call raises rather than emitting the signal. -/
theorem signal_fusion_raises_typeerror :
    (∀ (mc : ℚ) (state : TradingState) (condition : MarketCondition)
        (now : ℕ),
      generate_trading_signal { defaultConfig with min_confidence := mc }
          state condition now =
        (if mc ≤ total_confidence_of
              { defaultConfig with min_confidence := mc } condition ∧
            (state = READY_TO_BUY ∨ state = READY_TO_SELL) then
          Except.error
            "TypeError: unsupported operand type(s) for *: coroutine and Decimal"
         else Except.ok none))
    ∧ total_confidence_of { defaultConfig with min_confidence := 7/10 }
        exampleCondition = 79/100
    ∧ generate_trading_signal { defaultConfig with min_confidence := 7/10 }
        READY_TO_BUY exampleCondition 0 =
      Except.error
        "TypeError: unsupported operand type(s) for *: coroutine and Decimal"
    ∧ generate_trading_signal { defaultConfig with min_confidence := 4/5 }
        READY_TO_BUY exampleCondition 0 = Except.ok none := by
  have hgen : ∀ (mc : ℚ) (state : TradingState)
      (condition : MarketCondition) (now : ℕ),
      generate_trading_signal { defaultConfig with min_confidence := mc }
          state condition now =
        (if mc ≤ total_confidence_of
              { defaultConfig with min_confidence := mc } condition ∧
            (state = READY_TO_BUY ∨ state = READY_TO_SELL) then
          Except.error
            "TypeError: unsupported operand type(s) for *: coroutine and Decimal"
         else Except.ok none) := by
    intro mc state condition now
    cases state <;>
      simp [generate_trading_signal, calculate_position_size,
        total_confidence_of, defaultConfig] <;>
      split_ifs <;> simp_all
  have htc : ∀ m : ℚ, total_confidence_of
      { defaultConfig with min_confidence := m } exampleCondition =
      79/100 := by
    intro m
    norm_num [total_confidence_of, analyze_technical_signals,
      analyze_sentiment_signals, analyze_correlation_signals,
      defaultConfig, exampleCondition, abs, max_def, min_def]
  refine ⟨hgen, htc (7/10), ?_, ?_⟩
  · rw [hgen (7/10) READY_TO_BUY exampleCondition 0, if_pos]
    exact ⟨by rw [htc (7/10)]; norm_num, Or.inl rfl⟩
  · rw [hgen (4/5) READY_TO_BUY exampleCondition 0, if_neg]
    rintro ⟨hle, -⟩
    rw [htc (4/5)] at hle
    norm_num at hle

/-- A trade closed by the FILLED ledger scan no longer matches the scan's
guard. -/
theorem sellLegMatches_closed (oid : ℕ) (t : Trade) :
    sellLegMatches oid
      { t with status := "CLOSED"
               profit_loss := some (calculate_profit_loss t) } = false := by
  simp [sellLegMatches]

/-- Scanning a ledger a second time with the same FILLED order id changes
nothing: every trade the first scan closed is now CLOSED and every other
trade still fails the guard. -/
theorem ledgerLoop_filled_idem (oid : ℕ) (ts : List Trade) :
    ∀ (pos : Option Position) (cs : TradingState)
      (pos' : Option Position) (cs' : TradingState),
      ledgerLoop oid "FILLED" (ledgerLoop oid "FILLED" ts pos cs).1 pos' cs' =
        ((ledgerLoop oid "FILLED" ts pos cs).1, pos', cs') := by
  induction ts with
  | nil => intro pos cs pos' cs'; rfl
  | cons t ts ih =>
      intro pos cs pos' cs'
      by_cases hm : sellLegMatches oid t = true
      · simp only [ledgerLoop, hm, if_true, String.reduceEq, reduceIte,
          sellLegMatches_closed, Bool.false_eq_true, if_false]
        rw [ih]
      · simp only [ledgerLoop, hm, Bool.false_eq_true, if_false]
        rw [ih]

/-- C2: delivering the same FILLED update twice (at any wall-clock times)
leaves exactly the state reached after the first delivery — the same
TradingState, the same Position, the same active order and the same trade
ledger (statuses and profit_loss values included). -/
theorem handle_order_update_filled_idempotent (s : StateManager)
    (u : OrderUpdate) (n1 n2 : ℕ) (h : u.status = some "FILLED") :
    (s.handle_order_update u n1).handle_order_update u n2 =
      s.handle_order_update u n1 := by
  obtain ⟨oid?, st?, pr⟩ := u
  simp only [OrderUpdate.status] at h
  subst h
  cases oid? with
  | none =>
      simp [StateManager.handle_order_update, orderIdTruthy]
  | some oid =>
      by_cases h0 : oid = 0
      · subst h0
        simp [StateManager.handle_order_update, orderIdTruthy]
      · cases hao : s.active_order with
        | none =>
            simp [StateManager.handle_order_update, orderIdTruthy,
              statusTruthy, hao, h0, ledgerLoop_filled_idem]
        | some o =>
            by_cases hid : o.id = oid
            · cases hcs : s.current_state with
              | READY_TO_BUY =>
                  simp [StateManager.handle_order_update, orderIdTruthy,
                    statusTruthy, hao, h0, hid, hcs]
              | READY_TO_SELL =>
                  simp [StateManager.handle_order_update, orderIdTruthy,
                    statusTruthy, hao, h0, hid, hcs]
              | BUYING =>
                  simp [StateManager.handle_order_update, orderIdTruthy,
                    statusTruthy, hao, h0, hid, hcs,
                    StateManager.transition, is_valid_transition]
              | SELLING =>
                  simp [StateManager.handle_order_update, orderIdTruthy,
                    statusTruthy, hao, h0, hid, hcs,
                    StateManager.transition, is_valid_transition]
            · simp [StateManager.handle_order_update, orderIdTruthy,
                statusTruthy, hao, h0, hid, ledgerLoop_filled_idem]

/-- A manager in SELLING whose active order is the sell leg of the open
ledger trade. -/
def exampleSellingState : StateManager :=
  { symbol := "TRUMPUSDC", current_state := SELLING,
    current_position :=
      some { symbol := "TRUMPUSDC", quantity := 1, entry_price := 100,
             timestamp := 0 },
    active_order := some exampleSell,
    trades := [exampleRoundTrip] }

/-- The FILLED update for the active sell order of
`exampleSellingState`. -/
def exampleFilledUpdate : OrderUpdate :=
  { orderId := some 2, status := some "FILLED", price := some 110 }

/-- Witness for C2: delivering the FILLED fill of the active sell order
twice to `exampleSellingState` gives the state of the single delivery. -/
theorem handle_order_update_filled_idempotent_witness :
    (exampleSellingState.handle_order_update exampleFilledUpdate
        3).handle_order_update exampleFilledUpdate 9 =
      exampleSellingState.handle_order_update exampleFilledUpdate 3 :=
  handle_order_update_filled_idempotent exampleSellingState
    exampleFilledUpdate 3 9 rfl
